import Mathlib

/-!
Verification of the credential-resolution, token-persistence and resource
CRUD logic of the terraform-provider-nps repository
(internal/auth and internal/provider), shallowly embedded in Lean.

Modelling conventions:
* `oauth2.Token` is embedded as `OAuthToken`; its `Expiry time.Time` field is
  an `Int` (0 stands for Go's zero time, matching `Expiry.IsZero()`).
* The token file `~/.config/tf_nps_token.json` is an `Option JsonValue`:
  `none` when the file does not exist or cannot be read, `some j` when it
  holds the JSON document `j`.  `json.Marshal`/`json.Unmarshal` of an
  `oauth2.Token` are embedded as `marshalToken`/`unmarshalToken` over a small
  JSON value type (the expiry timestamp is kept as a number).
* Everything the code obtains from the outside world (environment variables,
  the HTTP fetch of the client id, the third-party oauth2 TokenSource and
  device-authorization endpoints, the JWT exp-claim parser) is a field of an
  explicit environment record `AuthEnv`, so every function is pure and one
  run of a function is one application.
-/

/-- Embeds golang.org/x/oauth2 `Token` (the four exported fields the provider
reads and persists). -/
structure OAuthToken where
  accessToken : String
  tokenType : String
  refreshToken : String
  expiry : Int
deriving DecidableEq, Repr

/-- A small JSON value type: the documents that can sit in the token file. -/
inductive JsonValue where
  | jnull : JsonValue
  | jbool : Bool → JsonValue
  | jnum : Int → JsonValue
  | jstr : String → JsonValue
  | jarr : List JsonValue → JsonValue
  | jobj : List (String × JsonValue) → JsonValue

/-- Embeds `json.Marshal(token)` for an `oauth2.Token`: a JSON object holding
the four exported fields under their struct-tag names. -/
def marshalToken (t : OAuthToken) : JsonValue :=
  JsonValue.jobj
    [("access_token", JsonValue.jstr t.accessToken),
     ("token_type", JsonValue.jstr t.tokenType),
     ("refresh_token", JsonValue.jstr t.refreshToken),
     ("expiry", JsonValue.jnum t.expiry)]

/-- First binding of `key` in a JSON object's field list. -/
def jsonField (fields : List (String × JsonValue)) (key : String) : Option JsonValue :=
  match fields with
  | [] => none
  | (k, v) :: rest => if k = key then some v else jsonField rest key

/-- A string field as `json.Unmarshal` fills it: absent ⇒ the zero value "",
present with a string ⇒ that string, present with another type ⇒ error. -/
def jsonStrField (fields : List (String × JsonValue)) (key : String) : Option String :=
  match jsonField fields key with
  | none => some ""
  | some (JsonValue.jstr s) => some s
  | some _ => none

/-- A numeric field as `json.Unmarshal` fills it (the expiry timestamp). -/
def jsonNumField (fields : List (String × JsonValue)) (key : String) : Option Int :=
  match jsonField fields key with
  | none => some 0
  | some (JsonValue.jnum n) => some n
  | some _ => none

/-- Embeds `json.Unmarshal(fileContent, &t)` for an `oauth2.Token`: fails on a
non-object document or on a wrongly-typed field, leaves absent fields at
their zero values. -/
def unmarshalToken (j : JsonValue) : Option OAuthToken :=
  match j with
  | JsonValue.jobj fields =>
      match jsonStrField fields "access_token", jsonStrField fields "token_type",
            jsonStrField fields "refresh_token", jsonNumField fields "expiry" with
      | some a, some ty, some r, some e =>
          some { accessToken := a, tokenType := ty, refreshToken := r, expiry := e }
      | _, _, _, _ => none
  | _ => none

/-- Embeds `writeTokenToFile` (internal/auth): marshal the token and write it
to the token file; the resulting file state. -/
def writeTokenToFile (token : OAuthToken) : Option JsonValue :=
  some (marshalToken token)

/-- Embeds `deleteTokenFromFile` (internal/auth): the resulting file state. -/
def deleteTokenFromFile : Option JsonValue :=
  none

/-- Embeds `apiTokenFromFile` (internal/auth): `none` when the file cannot be
read, when its contents do not unmarshal, or when both the access token and
the refresh token are empty. -/
def apiTokenFromFile (file : Option JsonValue) : Option OAuthToken :=
  match file with
  | none => none
  | some content =>
      match unmarshalToken content with
      | none => none
      | some t =>
          if t.accessToken = "" ∧ t.refreshToken = "" then none else some t

/-- Embeds `addTokenExpiry` (internal/auth).  `jwtExp s` is the exp claim the
jwt library extracts from the access token `s` (`none` covers both a parse
failure and a missing claim): if the token already has an expiry it is left
alone, otherwise the expiry is filled in from the JWT when possible. -/
def addTokenExpiry (jwtExp : String → Option Int) (token : OAuthToken) : OAuthToken :=
  if token.expiry ≠ 0 then token
  else
    match jwtExp token.accessToken with
    | none => token
    | some e => { token with expiry := e }

theorem unmarshal_marshal (t : OAuthToken) : unmarshalToken (marshalToken t) = some t := by
  rfl

/-- Embeds the `*oauth2.DeviceAuthResponse` the device-authorization endpoint
returns (only the field the code reads). -/
structure DeviceAuthResponse where
  verificationURIComplete : String
deriving DecidableEq, Repr

/-- The outside world as the auth code observes it in one run. -/
structure AuthEnv where
  /-- `os.Getenv("WORKSHOP_API_KEY")`: "" when the variable is unset. -/
  workshopAPIKey : String
  /-- `os.Args[0]`, used in the not-logged-in error message. -/
  osArgs0 : String
  /-- The HTTP fetch of `.well-known/workos-client-id`: url ↦ client id or
  a failure (a transport error or a non-200 status). -/
  httpGetClientID : String → Except String String
  /-- The jwt library's exp-claim extraction from an access token. -/
  jwtExp : String → Option Int
  /-- Outcome of `cfg.DeviceAuth(...)`. -/
  deviceAuth : Except String DeviceAuthResponse
  /-- Outcome of `cfg.DeviceAccessToken(ctx, deviceAuthResp)`. -/
  deviceAccessToken : Except String OAuthToken
  /-- Outcome of `o.ts.Token()`, the third-party TokenSource returning the
  current (possibly just refreshed) token. -/
  tokenSourceToken : Except String OAuthToken
  /-- Outcome of `credentials.CheckSecurityLevel` on a secure connection:
  `none` when the check passes, `some e` the error otherwise. -/
  securityCheckErr : Option String

/-- Embeds the `*oauth2.Config` the code builds (the only datum that varies
is the client id fetched from the endpoint; the WorkOS URLs are fixed). -/
structure OAuth2Config where
  clientID : String
deriving DecidableEq, Repr

/-- Embeds `createConfig` (internal/auth): derive the well-known URL from the
endpoint (insecure for localhost:8080), fetch the client id, and build the
oauth2 config. -/
def createConfig (env : AuthEnv) (endpoint : String) :
    Except String (OAuth2Config × Bool) :=
  let insecure := endpoint = "localhost:8080"
  let url := if endpoint = "localhost:8080" then
      "http://localhost:8080/.well-known/workos-client-id"
    else
      "https://" ++ endpoint ++ "/.well-known/workos-client-id"
  match env.httpGetClientID url with
  | Except.error e => Except.error ("failed to get client ID from endpoint: " ++ e)
  | Except.ok clientID => Except.ok ({ clientID := clientID }, insecure)

/-- Embeds `cfg.TokenSource(ctx, token)`: the config and the cached token the
source starts from (its network behaviour lives in `AuthEnv.tokenSourceToken`). -/
structure TokenSourceSpec where
  config : OAuth2Config
  initialToken : OAuthToken
deriving DecidableEq, Repr

/-- Embeds the `oauthRPCCreds` struct (internal/auth). -/
structure oauthRPCCreds where
  ts : TokenSourceSpec
  insecure : Bool
deriving DecidableEq, Repr

/-- The `credentials.PerRPCCredentials` values `APIKeyOrToken` can return:
a static API-key authorizer or the OAuth token-source credentials. -/
inductive PerRPCCredentials where
  | apiKeyAuthorizer : String → PerRPCCredentials
  | oauthCreds : oauthRPCCreds → PerRPCCredentials
deriving DecidableEq, Repr

/-- The observable steps of one run of the auth code, recorded in order. -/
inductive AuthAction where
  | checkedEnvKey
  | checkedInputKey
  | fetchedConfig
  | readTokenFile
  | ranDeviceCodeFlow
  | wroteTokenFile
deriving DecidableEq, Repr

/-- The not-logged-in error message of `APIKeyOrToken`. -/
def notLoggedInError (arg0 serverURL : String) : String :=
  "Not logged in. Run `" ++ arg0 ++ " -login " ++ serverURL ++ "` to login"

/-- Embeds `APIKeyOrToken` (internal/auth): the credential chain.  Returns
the result together with the trace of steps the run performed. -/
def APIKeyOrToken (env : AuthEnv) (file : Option JsonValue)
    (inputKey serverURL : String) :
    Except String PerRPCCredentials × List AuthAction :=
  if env.workshopAPIKey ≠ "" then
    (Except.ok (PerRPCCredentials.apiKeyAuthorizer env.workshopAPIKey),
     [AuthAction.checkedEnvKey])
  else if inputKey ≠ "" then
    (Except.ok (PerRPCCredentials.apiKeyAuthorizer inputKey),
     [AuthAction.checkedEnvKey, AuthAction.checkedInputKey])
  else
    match createConfig env serverURL with
    | Except.error e =>
        (Except.error e,
         [AuthAction.checkedEnvKey, AuthAction.checkedInputKey, AuthAction.fetchedConfig])
    | Except.ok (cfg, insecure) =>
        match apiTokenFromFile file with
        | some token =>
            (Except.ok (PerRPCCredentials.oauthCreds
               { ts := { config := cfg, initialToken := token }, insecure := insecure }),
             [AuthAction.checkedEnvKey, AuthAction.checkedInputKey,
              AuthAction.fetchedConfig, AuthAction.readTokenFile])
        | none =>
            (Except.error (notLoggedInError env.osArgs0 serverURL),
             [AuthAction.checkedEnvKey, AuthAction.checkedInputKey,
              AuthAction.fetchedConfig, AuthAction.readTokenFile])

/-- Embeds `GetAndStoreToken` (internal/auth), the `-login` flow: fetch the
config, run the device-authorization grant, and persist the token.  Returns
(result, final token-file state, trace). -/
def GetAndStoreToken (env : AuthEnv) (file : Option JsonValue) (serverURL : String) :
    Except String Unit × Option JsonValue × List AuthAction :=
  match createConfig env serverURL with
  | Except.error e => (Except.error e, file, [AuthAction.fetchedConfig])
  | Except.ok _ =>
      match env.deviceAuth with
      | Except.error e =>
          (Except.error ("failed to request device authorization: " ++ e), file,
           [AuthAction.fetchedConfig, AuthAction.ranDeviceCodeFlow])
      | Except.ok _ =>
          match env.deviceAccessToken with
          | Except.error e =>
              (Except.error ("failed to get device access token: " ++ e), file,
               [AuthAction.fetchedConfig, AuthAction.ranDeviceCodeFlow])
          | Except.ok token =>
              (Except.ok (), writeTokenToFile (addTokenExpiry env.jwtExp token),
               [AuthAction.fetchedConfig, AuthAction.ranDeviceCodeFlow,
                AuthAction.wroteTokenFile])

/-- ASCII lower-casing of one character (how `strings.EqualFold` compares the
ASCII token types the oauth2 library distinguishes). -/
def asciiLowerChar (c : Char) : Char :=
  if 'A' ≤ c ∧ c ≤ 'Z' then Char.ofNat (c.toNat + 32) else c

/-- ASCII lower-casing of a string, by structural recursion over its
characters. -/
def asciiLower (s : String) : String :=
  String.mk (s.data.map asciiLowerChar)

/-- Embeds `oauth2.Token.Type()` (the token type sent in the header):
case-insensitively canonical Bearer/MAC/Basic, the raw type otherwise,
Bearer when empty. -/
def OAuthToken.type (t : OAuthToken) : String :=
  if asciiLower t.tokenType = "bearer" then "Bearer"
  else if asciiLower t.tokenType = "mac" then "MAC"
  else if asciiLower t.tokenType = "basic" then "Basic"
  else if t.tokenType ≠ "" then t.tokenType
  else "Bearer"

/-- Embeds `oauthRPCCreds.GetRequestMetadata` (internal/auth).  The input
token-file state is `_file`; returns (result, final token-file state): on a
token-source failure the file is deleted, otherwise the (expiry-completed)
token is written back before the security-level check. -/
def oauthRPCCreds.GetRequestMetadata (env : AuthEnv) (o : oauthRPCCreds)
    (_file : Option JsonValue) :
    Except String (List (String × String)) × Option JsonValue :=
  match env.tokenSourceToken with
  | Except.error e => (Except.error e, deleteTokenFromFile)
  | Except.ok tok0 =>
      let tok := addTokenExpiry env.jwtExp tok0
      let file' := writeTokenToFile tok
      match (if o.insecure then none else env.securityCheckErr) with
      | some e =>
          (Except.error ("unable to transfer TokenSource PerRPCCredentials: " ++ e), file')
      | none =>
          (Except.ok [("authorization", OAuthToken.type tok ++ " " ++ tok.accessToken)],
           file')

/-- Embeds terraform-plugin-framework's `types.String`: null, unknown, or a
known value. -/
inductive TFString where
  | null
  | unknown
  | value : String → TFString
deriving DecidableEq, Repr

/-- `types.String.ValueString()`: the known value, "" for null or unknown. -/
def TFString.valueString : TFString → String
  | TFString.value s => s
  | _ => ""

/-- Embeds terraform-plugin-framework's `types.Int64`. -/
inductive TFInt64 where
  | null
  | unknown
  | value : Int → TFInt64
deriving DecidableEq, Repr

/-- `types.Int64.ValueInt64()`: the known value, 0 for null or unknown. -/
def TFInt64.valueInt64 : TFInt64 → Int
  | TFInt64.value n => n
  | _ => 0

/-- Embeds `PackageRuleResourceModel` (internal/provider/resource_package_rule.go). -/
structure PackageRuleResourceModel where
  tag : TFString
  source : TFString
  name : TFString
  policy : TFString
  ruleType : TFString
  minDate : TFString
  maxDate : TFString
  versionRegexp : TFString
  id : TFInt64
deriving DecidableEq, Repr

/-- Embeds one `workshop.v1.PackageRule` as the provider reads it back: the
enum-valued fields carry their protobuf `.String()` form, the optional
timestamps their RFC3339-formatted form when present. -/
structure PackageRule where
  ruleId : Int
  tag : String
  source : String
  name : String
  policy : String
  ruleType : String
  versionRegexp : String
  minDate : Option String
  maxDate : Option String
deriving DecidableEq, Repr

/-- The remote calls a resource handler can issue against the Workshop
service in one request. -/
inductive RPCCall where
  | createPackageRule : RPCCall
  | listPackageRules : String → RPCCall
  | deletePackageRule : Int → RPCCall
  | updatePackageRule : RPCCall
  | createFileAccessRule : RPCCall
  | listFileAccessRules : String → RPCCall
  | deleteFileAccessRule : Int → RPCCall
  | updateFileAccessRule : RPCCall
deriving DecidableEq, Repr

/-- Whether a remote call is an update call. -/
def RPCCall.isUpdate : RPCCall → Bool
  | RPCCall.updatePackageRule => true
  | RPCCall.updateFileAccessRule => true
  | _ => false

/-- The outcome of one `Read` request: the error diagnostics added, the final
state (`none` when `RemoveResource` was called), and the remote calls made. -/
structure ReadOutcome where
  diagnostics : List (String × String)
  state : Option PackageRuleResourceModel
  calls : List RPCCall
deriving DecidableEq, Repr

/-- The filter string `PackageRuleResource.Read` builds to query the rule by
id or by (name, source, tag). -/
def packageRuleReadFilter (data : PackageRuleResourceModel) : String :=
  "rule_id = " ++ toString data.id.valueInt64 ++ " OR (name = \"" ++
    data.name.valueString ++ "\" AND source = \"" ++ data.source.valueString ++
    "\" AND tag = \"" ++ data.tag.valueString ++ "\")"

/-- Embeds `PackageRuleResource.Read` after the prior state was decoded into
`data`; `listResult` is the `ListPackageRules` response.  On an RPC error the
prior state stays; on an empty result the resource is removed from state; on
a hit every required field is overwritten from the remote rule while the
optional fields keep the prior value when the remote one is empty or absent. -/
def packageRuleRead (data : PackageRuleResourceModel)
    (listResult : Except String (List PackageRule)) : ReadOutcome :=
  match listResult with
  | Except.error e =>
      { diagnostics := [("Client Error", "Failed to list package rules: " ++ e)],
        state := some data,
        calls := [RPCCall.listPackageRules (packageRuleReadFilter data)] }
  | Except.ok [] =>
      { diagnostics := [],
        state := none,
        calls := [RPCCall.listPackageRules (packageRuleReadFilter data)] }
  | Except.ok (rule :: _) =>
      { diagnostics := [],
        state := some { data with
          id := TFInt64.value rule.ruleId,
          tag := TFString.value rule.tag,
          source := TFString.value rule.source,
          name := TFString.value rule.name,
          policy := TFString.value rule.policy,
          ruleType := TFString.value rule.ruleType,
          versionRegexp :=
            if rule.versionRegexp ≠ "" then TFString.value rule.versionRegexp
            else data.versionRegexp,
          minDate := match rule.minDate with
            | some s => TFString.value s
            | none => data.minDate,
          maxDate := match rule.maxDate with
            | some s => TFString.value s
            | none => data.maxDate },
        calls := [RPCCall.listPackageRules (packageRuleReadFilter data)] }

/-- The outcome of one `Update` request: diagnostics and remote calls. -/
structure UpdateOutcome where
  diagnostics : List (String × String)
  calls : List RPCCall
deriving DecidableEq, Repr

/-- Embeds `PackageRuleResource.Update`: the request is never read; the
handler only adds an error diagnostic and issues no remote call. -/
def packageRuleUpdate : UpdateOutcome :=
  { diagnostics :=
      [("Client Error", "nps_workshop_package_rule does not support in-place updates")],
    calls := [] }

/-- Embeds `FileAccessRuleResource.Update` (internal/provider/provider.go):
the request is never read; the handler only adds an error diagnostic and
issues no remote call. -/
def fileAccessRuleUpdate : UpdateOutcome :=
  { diagnostics :=
      [("Client Error", "nps_workshop_file_access_rule does not support in-place updates")],
    calls := [] }

/-- The credential branch one run of `APIKeyOrToken` settled on. -/
inductive AuthBranch where
  | envKey
  | configKey
  | cachedToken
  | notLoggedIn
  | configFetchError
deriving DecidableEq, Repr

/-- Reads the chosen branch off a run's result and trace. -/
def chosenBranch (r : Except String PerRPCCredentials × List AuthAction) : AuthBranch :=
  match r.1 with
  | Except.ok (PerRPCCredentials.apiKeyAuthorizer _) =>
      if AuthAction.checkedInputKey ∈ r.2 then AuthBranch.configKey else AuthBranch.envKey
  | Except.ok (PerRPCCredentials.oauthCreds _) => AuthBranch.cachedToken
  | Except.error _ =>
      if AuthAction.readTokenFile ∈ r.2 then AuthBranch.notLoggedIn
      else AuthBranch.configFetchError

/-- A client-id fetch that always succeeds, for concrete runs. -/
def plainHTTP : String → Except String String := fun _ => Except.ok "client_01TEST"

/-- A concrete world in which the environment variable, the provider-config
key and the cached token are all absent and the client-id fetch succeeds. -/
def allAbsentEnv : AuthEnv where
  workshopAPIKey := ""
  osArgs0 := "terraform-provider-nps"
  httpGetClientID := plainHTTP
  jwtExp := fun _ => none
  deviceAuth := Except.ok { verificationURIComplete := "https://auth.example.com/device" }
  deviceAccessToken :=
    Except.ok { accessToken := "at0", tokenType := "", refreshToken := "rt0", expiry := 0 }
  tokenSourceToken := Except.error "token expired and refresh failed"
  securityCheckErr := none

/-- C1: credential resolution precedence.  A non-empty `WORKSHOP_API_KEY`
environment value is used as the API-key credential, ignoring the config
key; otherwise a non-empty config key is used; and the token file is
consulted only when both are empty. -/
theorem APIKeyOrToken_precedence (env : AuthEnv) (file : Option JsonValue)
    (inputKey serverURL : String) :
    (env.workshopAPIKey ≠ "" →
      (APIKeyOrToken env file inputKey serverURL).1 =
        Except.ok (PerRPCCredentials.apiKeyAuthorizer env.workshopAPIKey)) ∧
    (env.workshopAPIKey = "" → inputKey ≠ "" →
      (APIKeyOrToken env file inputKey serverURL).1 =
        Except.ok (PerRPCCredentials.apiKeyAuthorizer inputKey)) ∧
    (AuthAction.readTokenFile ∈ (APIKeyOrToken env file inputKey serverURL).2 →
      env.workshopAPIKey = "" ∧ inputKey = "") := by
  refine ⟨fun h => ?_, fun h1 h2 => ?_, fun hmem => ?_⟩
  · simp [APIKeyOrToken, h]
  · simp [APIKeyOrToken, h1, h2]
  · by_cases h1 : env.workshopAPIKey = ""
    · by_cases h2 : inputKey = ""
      · exact ⟨h1, h2⟩
      · simp [APIKeyOrToken, h1, h2] at hmem
    · simp [APIKeyOrToken, h1] at hmem

/-- C2 counterexample: with the environment variable, the config key and the
token file all absent (and the client-id fetch succeeding), `APIKeyOrToken`
returns the not-logged-in error and never runs the interactive device-code
flow — the flow is not a step the provider's credential resolution performs. -/
theorem APIKeyOrToken_no_device_flow :
    (APIKeyOrToken allAbsentEnv none "" "workshop.example.com").1 =
      Except.error (notLoggedInError "terraform-provider-nps" "workshop.example.com") ∧
    AuthAction.ranDeviceCodeFlow ∉
      (APIKeyOrToken allAbsentEnv none "" "workshop.example.com").2 :=
  ⟨rfl, by decide⟩

/-- C2 (amended): when the environment variable, the config key and a valid
cached token are all absent, credential resolution does not itself run the
device-code flow; it returns the not-logged-in error that directs the user to
the separate `-login` invocation, and it is that invocation
(`GetAndStoreToken`) which performs the interactive device-code login. -/
theorem credential_chain_ends_in_login_error (env : AuthEnv) (file : Option JsonValue)
    (serverURL : String) (cfg : OAuth2Config × Bool)
    (henv : env.workshopAPIKey = "")
    (hcfg : createConfig env serverURL = Except.ok cfg)
    (htok : apiTokenFromFile file = none) :
    (APIKeyOrToken env file "" serverURL).1 =
      Except.error (notLoggedInError env.osArgs0 serverURL) ∧
    AuthAction.ranDeviceCodeFlow ∉ (APIKeyOrToken env file "" serverURL).2 ∧
    AuthAction.ranDeviceCodeFlow ∈ (GetAndStoreToken env file serverURL).2.2 := by
  refine ⟨?_, ?_, ?_⟩
  · simp [APIKeyOrToken, henv, hcfg, htok]
  · simp [APIKeyOrToken, henv, hcfg, htok]
  · cases hda : env.deviceAuth <;> cases hdat : env.deviceAccessToken <;>
      simp [GetAndStoreToken, hcfg, hda, hdat]

/-- C2 witness: the amended theorem applied at the concrete all-absent world. -/
theorem credential_chain_ends_in_login_error_witness :
    allAbsentEnv.workshopAPIKey = "" ∧
    apiTokenFromFile none = none ∧
    ((APIKeyOrToken allAbsentEnv none "" "workshop.example.com").1 =
        Except.error (notLoggedInError allAbsentEnv.osArgs0 "workshop.example.com") ∧
      AuthAction.ranDeviceCodeFlow ∉
        (APIKeyOrToken allAbsentEnv none "" "workshop.example.com").2 ∧
      AuthAction.ranDeviceCodeFlow ∈
        (GetAndStoreToken allAbsentEnv none "workshop.example.com").2.2) :=
  ⟨rfl, rfl,
    credential_chain_ends_in_login_error allAbsentEnv none "workshop.example.com"
      ({ clientID := "client_01TEST" }, false) rfl rfl rfl⟩

theorem addTokenExpiry_fills (jwtExp : String → Option Int) (t : OAuthToken)
    (h0 : t.expiry = 0) (e : Int) (hj : jwtExp t.accessToken = some e) :
    (addTokenExpiry jwtExp t).expiry = e := by
  simp [addTokenExpiry, h0, hj]

/-- C3: whenever `oauthRPCCreds.GetRequestMetadata` returns without error,
the current (possibly refreshed) token — with its expiry filled in from the
JWT exp claim when it was zero — has been written back to the token file, and
the returned metadata maps "authorization" to the token type, a space, and
the access token. -/
theorem GetRequestMetadata_success (env : AuthEnv) (o : oauthRPCCreds)
    (file : Option JsonValue) (md : List (String × String))
    (h : (oauthRPCCreds.GetRequestMetadata env o file).1 = Except.ok md) :
    ∃ tok0, env.tokenSourceToken = Except.ok tok0 ∧
      (oauthRPCCreds.GetRequestMetadata env o file).2 =
        writeTokenToFile (addTokenExpiry env.jwtExp tok0) ∧
      md = [("authorization",
        OAuthToken.type (addTokenExpiry env.jwtExp tok0) ++ " " ++
          (addTokenExpiry env.jwtExp tok0).accessToken)] ∧
      (tok0.expiry = 0 → ∀ e, env.jwtExp tok0.accessToken = some e →
        (addTokenExpiry env.jwtExp tok0).expiry = e) := by
  cases hts : env.tokenSourceToken with
  | error e => simp [oauthRPCCreds.GetRequestMetadata, hts] at h
  | ok tok0 =>
    cases hsec : (if o.insecure then none else env.securityCheckErr) with
    | some e => simp [oauthRPCCreds.GetRequestMetadata, hts, hsec] at h
    | none =>
      simp only [oauthRPCCreds.GetRequestMetadata, hts, hsec] at h ⊢
      refine ⟨tok0, rfl, rfl, ?_, fun h0 e he => addTokenExpiry_fills env.jwtExp tok0 h0 e he⟩
      exact (Except.ok.injEq _ _ ▸ h).symm

/-- C3 witness: a concrete refreshed run on an insecure (localhost)
connection. -/
def refreshedEnv : AuthEnv :=
  { allAbsentEnv with
    tokenSourceToken :=
      Except.ok { accessToken := "at2", tokenType := "", refreshToken := "rt2", expiry := 0 },
    jwtExp := fun _ => some 1700000000 }

/-- A concrete token cached on disk before the runs below. -/
def cachedTok : OAuthToken :=
  { accessToken := "at1", tokenType := "Bearer", refreshToken := "rt1", expiry := 12345 }

/-- Concrete OAuth per-RPC credentials over an insecure connection. -/
def sampleCreds : oauthRPCCreds :=
  { ts := { config := { clientID := "client_01TEST" }, initialToken := cachedTok },
    insecure := true }

/-- C3 witness: the success theorem applied at a concrete refreshed run. -/
theorem GetRequestMetadata_success_witness :
    (oauthRPCCreds.GetRequestMetadata refreshedEnv sampleCreds none).1 =
      Except.ok [("authorization", "Bearer at2")] ∧
    (∃ tok0, refreshedEnv.tokenSourceToken = Except.ok tok0 ∧
      (oauthRPCCreds.GetRequestMetadata refreshedEnv sampleCreds none).2 =
        writeTokenToFile (addTokenExpiry refreshedEnv.jwtExp tok0) ∧
      [("authorization", "Bearer at2")] = [("authorization",
        OAuthToken.type (addTokenExpiry refreshedEnv.jwtExp tok0) ++ " " ++
          (addTokenExpiry refreshedEnv.jwtExp tok0).accessToken)] ∧
      (tok0.expiry = 0 → ∀ e, refreshedEnv.jwtExp tok0.accessToken = some e →
        (addTokenExpiry refreshedEnv.jwtExp tok0).expiry = e)) :=
  ⟨rfl, GetRequestMetadata_success refreshedEnv sampleCreds none
    [("authorization", "Bearer at2")] rfl⟩

/-- C9: when the token source fails to produce a token, the cached token file
is deleted (the file state is `none` afterwards, whatever it held before) and
the error is returned. -/
theorem GetRequestMetadata_refresh_failure (env : AuthEnv) (o : oauthRPCCreds)
    (file : Option JsonValue) (e : String)
    (h : env.tokenSourceToken = Except.error e) :
    (oauthRPCCreds.GetRequestMetadata env o file).1 = Except.error e ∧
    (oauthRPCCreds.GetRequestMetadata env o file).2 = none := by
  simp [oauthRPCCreds.GetRequestMetadata, h, deleteTokenFromFile]

/-- C9 witness: the refresh-failure theorem applied with a token file that
exists beforehand; afterwards it does not. -/
theorem GetRequestMetadata_refresh_failure_witness :
    allAbsentEnv.tokenSourceToken = Except.error "token expired and refresh failed" ∧
    ((oauthRPCCreds.GetRequestMetadata allAbsentEnv sampleCreds
        (some (marshalToken cachedTok))).1 =
      Except.error "token expired and refresh failed" ∧
     (oauthRPCCreds.GetRequestMetadata allAbsentEnv sampleCreds
        (some (marshalToken cachedTok))).2 = none) :=
  ⟨rfl, GetRequestMetadata_refresh_failure allAbsentEnv sampleCreds
    (some (marshalToken cachedTok)) "token expired and refresh failed" rfl⟩

/-- C4: a successful run of `GetAndStoreToken` writes the exchanged token
(with its expiry filled in from the JWT when the exchange response lacked
one) as JSON to the token file and returns without error; when the
device-authorization request or the token exchange fails, an error is
returned and the token file is left untouched. -/
theorem GetAndStoreToken_spec (env : AuthEnv) (file : Option JsonValue)
    (serverURL : String) :
    ((GetAndStoreToken env file serverURL).1 = Except.ok () →
      ∃ tok, env.deviceAccessToken = Except.ok tok ∧
        (GetAndStoreToken env file serverURL).2.1 =
          writeTokenToFile (addTokenExpiry env.jwtExp tok) ∧
        (tok.expiry = 0 → ∀ e, env.jwtExp tok.accessToken = some e →
          (addTokenExpiry env.jwtExp tok).expiry = e)) ∧
    ((∃ e, env.deviceAuth = Except.error e) ∨
        (∃ e, env.deviceAccessToken = Except.error e) →
      (∃ msg, (GetAndStoreToken env file serverURL).1 = Except.error msg) ∧
      (GetAndStoreToken env file serverURL).2.1 = file) := by
  cases hcfg : createConfig env serverURL with
  | error e =>
    refine ⟨fun h => ?_, fun _ => ?_⟩
    · simp [GetAndStoreToken, hcfg] at h
    · simp [GetAndStoreToken, hcfg]
  | ok cfg =>
    cases hda : env.deviceAuth with
    | error e =>
      refine ⟨fun h => ?_, fun _ => ?_⟩
      · simp [GetAndStoreToken, hcfg, hda] at h
      · simp [GetAndStoreToken, hcfg, hda]
    | ok dar =>
      cases hdat : env.deviceAccessToken with
      | error e =>
        refine ⟨fun h => ?_, fun _ => ?_⟩
        · simp [GetAndStoreToken, hcfg, hda, hdat] at h
        · simp [GetAndStoreToken, hcfg, hda, hdat]
      | ok tok =>
        refine ⟨fun _ => ⟨tok, rfl, ?_, fun h0 e he => addTokenExpiry_fills env.jwtExp tok h0 e he⟩,
          fun hfail => ?_⟩
        · simp [GetAndStoreToken, hcfg, hda, hdat]
        · rcases hfail with ⟨e, he⟩ | ⟨e, he⟩
          · cases he
          · cases he

/-- C10: writing a token whose access token or refresh token is non-empty to
the token file and reading it back yields the very same token (in particular
equal in its AccessToken, RefreshToken, TokenType and Expiry fields). -/
theorem token_file_roundtrip (t : OAuthToken)
    (h : ¬(t.accessToken = "" ∧ t.refreshToken = "")) :
    apiTokenFromFile (writeTokenToFile t) = some t := by
  simp [apiTokenFromFile, writeTokenToFile, unmarshal_marshal t, h]

/-- C10 witness: the round trip at a concrete token. -/
theorem token_file_roundtrip_witness :
    ¬(cachedTok.accessToken = "" ∧ cachedTok.refreshToken = "") ∧
    apiTokenFromFile (writeTokenToFile cachedTok) = some cachedTok :=
  ⟨by decide, token_file_roundtrip cachedTok (by decide)⟩

/-- C8: `apiTokenFromFile` yields no token exactly when the file cannot be
read, its contents fail to unmarshal as a token, or both the access and the
refresh token are empty; and in each such case `APIKeyOrToken` with empty
environment and config keys (and a reachable token check, i.e. the client-id
fetch succeeded) returns the not-logged-in error rather than a credential. -/
theorem apiTokenFromFile_none_iff (env : AuthEnv) (file : Option JsonValue)
    (serverURL : String) :
    (apiTokenFromFile file = none ↔
      file = none ∨
      (∃ j, file = some j ∧ unmarshalToken j = none) ∨
      (∃ j t, file = some j ∧ unmarshalToken j = some t ∧
        t.accessToken = "" ∧ t.refreshToken = "")) ∧
    (env.workshopAPIKey = "" → apiTokenFromFile file = none →
      ∀ cfg, createConfig env serverURL = Except.ok cfg →
        (APIKeyOrToken env file "" serverURL).1 =
          Except.error (notLoggedInError env.osArgs0 serverURL)) := by
  constructor
  · cases file with
    | none => simp [apiTokenFromFile]
    | some j =>
      cases hj : unmarshalToken j with
      | none => simp [apiTokenFromFile, hj]
      | some t =>
        by_cases hempty : t.accessToken = "" ∧ t.refreshToken = "" <;>
          simp [apiTokenFromFile, hj, hempty]
  · intro henv htok cfg hcfg
    simp [APIKeyOrToken, henv, hcfg, htok]

/-- C5 counterexample: neither `PackageRuleResource.Update` nor
`FileAccessRuleResource.Update` performs any remote call — in particular no
update call — and the package-rule handler instead adds an error diagnostic. -/
theorem update_performs_no_update_call :
    (¬ ∃ c, c ∈ packageRuleUpdate.calls ∧ c.isUpdate = true) ∧
    (¬ ∃ c, c ∈ fileAccessRuleUpdate.calls ∧ c.isUpdate = true) ∧
    packageRuleUpdate.diagnostics ≠ [] := by
  refine ⟨?_, ?_, ?_⟩ <;> simp [packageRuleUpdate, fileAccessRuleUpdate]

/-- C5 (amended): each resource maps its schema to imperative remote calls
(`Read` issues the list call), but the package-rule and file-access-rule
resources do not support in-place updates: their `Update` handlers issue no
remote call at all and only add an error diagnostic saying so; reconciliation
of a changed declaration happens by replacement (delete and create). -/
theorem resource_update_no_rpc (data : PackageRuleResourceModel)
    (res : Except String (List PackageRule)) :
    packageRuleUpdate.calls = [] ∧
    packageRuleUpdate.diagnostics =
      [("Client Error", "nps_workshop_package_rule does not support in-place updates")] ∧
    fileAccessRuleUpdate.calls = [] ∧
    fileAccessRuleUpdate.diagnostics =
      [("Client Error", "nps_workshop_file_access_rule does not support in-place updates")] ∧
    RPCCall.listPackageRules (packageRuleReadFilter data) ∈
      (packageRuleRead data res).calls := by
  refine ⟨rfl, rfl, rfl, rfl, ?_⟩
  cases res with
  | error e => simp [packageRuleRead]
  | ok rules => cases rules <;> simp [packageRuleRead]

/-- A concrete prior state for the package-rule resource. -/
def priorStateA : PackageRuleResourceModel :=
  { tag := TFString.value "workstations", source := TFString.value "PACKAGE_SOURCE_HOMEBREW",
    name := TFString.value "wget", policy := TFString.value "POLICY_ALLOWLIST",
    ruleType := TFString.value "RULE_TYPE_TEAMID", minDate := TFString.null,
    maxDate := TFString.null, versionRegexp := TFString.value "v1.*",
    id := TFInt64.value 7 }

/-- The same prior state with a different `version_regexp`. -/
def priorStateB : PackageRuleResourceModel :=
  { priorStateA with versionRegexp := TFString.value "v2.*" }

/-- A concrete remote rule whose `version_regexp` is empty. -/
def remoteRule : PackageRule :=
  { ruleId := 7, tag := "workstations", source := "PACKAGE_SOURCE_HOMEBREW", name := "wget",
    policy := "POLICY_ALLOWLIST", ruleType := "RULE_TYPE_TEAMID", versionRegexp := "",
    minDate := none, maxDate := none }

/-- C6 counterexample: when the remote rule's `version_regexp` is empty, Read
keeps the prior state's value instead of overwriting it — two prior states
that differ only in that field read back to different states under the very
same remote answer, so not every field is overwritten with remote values. -/
theorem packageRuleRead_keeps_prior_field :
    Option.map PackageRuleResourceModel.versionRegexp
        (packageRuleRead priorStateA (Except.ok [remoteRule])).state =
      some (TFString.value "v1.*") ∧
    remoteRule.versionRegexp = "" ∧
    (packageRuleRead priorStateA (Except.ok [remoteRule])).state ≠
      (packageRuleRead priorStateB (Except.ok [remoteRule])).state :=
  ⟨rfl, rfl, by decide⟩

/-- C6 (amended): a successful list call with zero matching rules removes the
resource from state with no error diagnostic; with at least one rule, the
required fields (id, tag, source, name, policy, rule type) are overwritten
with the remote values, while the optional fields (version regexp, min date,
max date) are overwritten only when the remote value is non-empty or present
and otherwise keep their prior state value. -/
theorem packageRuleRead_spec (data : PackageRuleResourceModel)
    (res : Except String (List PackageRule)) :
    (res = Except.ok [] →
      (packageRuleRead data res).state = none ∧
      (packageRuleRead data res).diagnostics = []) ∧
    (∀ rule rest, res = Except.ok (rule :: rest) →
      ∃ d, (packageRuleRead data res).state = some d ∧
        (packageRuleRead data res).diagnostics = [] ∧
        d.id = TFInt64.value rule.ruleId ∧
        d.tag = TFString.value rule.tag ∧
        d.source = TFString.value rule.source ∧
        d.name = TFString.value rule.name ∧
        d.policy = TFString.value rule.policy ∧
        d.ruleType = TFString.value rule.ruleType ∧
        (rule.versionRegexp ≠ "" → d.versionRegexp = TFString.value rule.versionRegexp) ∧
        (rule.versionRegexp = "" → d.versionRegexp = data.versionRegexp) ∧
        (∀ s, rule.minDate = some s → d.minDate = TFString.value s) ∧
        (rule.minDate = none → d.minDate = data.minDate) ∧
        (∀ s, rule.maxDate = some s → d.maxDate = TFString.value s) ∧
        (rule.maxDate = none → d.maxDate = data.maxDate)) := by
  constructor
  · intro h; subst h; exact ⟨rfl, rfl⟩
  · intro rule rest h; subst h
    refine ⟨_, rfl, rfl, rfl, rfl, rfl, rfl, rfl, rfl, ?_, ?_, ?_, ?_, ?_, ?_⟩
    · intro hne; simp [hne]
    · intro he; simp [he]
    · intro s hs; simp [hs]
    · intro hn; simp [hn]
    · intro s hs; simp [hs]
    · intro hn; simp [hn]

theorem createConfig_congr (e1 e2 : AuthEnv) (endpoint : String)
    (h : e1.httpGetClientID = e2.httpGetClientID) :
    createConfig e1 endpoint = createConfig e2 endpoint := by
  simp [createConfig, h]

/-- C7: the credential chain is deterministic.  Two runs of `APIKeyOrToken`
with the same `WORKSHOP_API_KEY` value, the same input key, the same endpoint
responses and the same token-file contents settle on the same credential
branch, whatever else differs between the two worlds. -/
theorem APIKeyOrToken_deterministic (e1 e2 : AuthEnv) (file : Option JsonValue)
    (inputKey serverURL : String)
    (henv : e1.workshopAPIKey = e2.workshopAPIKey)
    (hhttp : e1.httpGetClientID = e2.httpGetClientID) :
    chosenBranch (APIKeyOrToken e1 file inputKey serverURL) =
      chosenBranch (APIKeyOrToken e2 file inputKey serverURL) := by
  have hcfg := createConfig_congr e1 e2 serverURL hhttp
  by_cases h1 : e1.workshopAPIKey = ""
  · have h1' : e2.workshopAPIKey = "" := henv ▸ h1
    by_cases h2 : inputKey = ""
    · cases hc : createConfig e2 serverURL with
      | error e =>
        simp [APIKeyOrToken, h1, h1', h2, hcfg, hc, chosenBranch]
      | ok cfg =>
        cases ht : apiTokenFromFile file with
        | some tok => simp [APIKeyOrToken, h1, h1', h2, hcfg, hc, ht, chosenBranch]
        | none => simp [APIKeyOrToken, h1, h1', h2, hcfg, hc, ht, chosenBranch]
    · simp [APIKeyOrToken, h1, h1', h2, chosenBranch]
  · have h1' : ¬ e2.workshopAPIKey = "" := henv ▸ h1
    simp [APIKeyOrToken, h1, h1', chosenBranch]

/-- A world agreeing with `allAbsentEnv` on the key and the endpoint
responses but differing elsewhere. -/
def altEnv : AuthEnv :=
  { allAbsentEnv with
    osArgs0 := "workshop-tf"
    jwtExp := fun _ => some 1
    tokenSourceToken := Except.ok cachedTok }

/-- C7 witness: determinism applied at two concrete worlds that differ in
`os.Args[0]`, the JWT parser and the token source. -/
theorem APIKeyOrToken_deterministic_witness :
    allAbsentEnv.workshopAPIKey = altEnv.workshopAPIKey ∧
    chosenBranch (APIKeyOrToken allAbsentEnv none "" "workshop.example.com") =
      chosenBranch (APIKeyOrToken altEnv none "" "workshop.example.com") :=
  ⟨rfl, APIKeyOrToken_deterministic allAbsentEnv altEnv none "" "workshop.example.com" rfl rfl⟩
